import Mathlib

/-!
Verification development for the PharmaGuard pharmacogenomics pipeline.

Shallow embedding of the core Python modules:
  * `src/core/vcf_parser.py`          — VCF line extraction and zygosity calls
  * `src/core/variant_mapper.py`      — enrichment against the variant knowledge base
  * `src/core/diplotype_caller.py`    — star-allele pairing and phenotype lookup
  * `src/core/phenotype_predictor.py` — activity-score based phenotype banding
  * `src/core/risk_engine.py`         — drug risk verdict lookup
  * `src/core/llm_explainer.py`       — deterministic narrative fallback and patching

Python floats are modelled as rationals (exact for every constant and every
score arising in this code, all of which are multiples of 1/100).  Python
dicts are modelled as association lists with first-match lookup and
overwrite-in-place insertion, mirroring dict assignment semantics.  JSON
values of arbitrary shape are modelled by the inductive type `J`.

Python string primitives are modelled character-by-character so that every
definition evaluates by kernel reduction: every `str.split` in this code uses
a single-character separator, `str.replace` replaces one character by
another, and `str.strip`/`lower`/`upper` act per character, so the models
below agree exactly with the Python operations on the strings involved.
-/

set_option maxRecDepth 8000

/-- Python dict assignment `d[k] = v` on an association list: overwrite the
first binding of `k` in place, else append.  Keys stay unique when the list
is built only through `upsert`. -/
def upsert {α : Type} : List (String × α) → String → α → List (String × α)
  | [], k, v => [(k, v)]
  | (k', v') :: rest, k, v =>
      if k' = k then (k, v) :: rest else (k', v') :: upsert rest k v

theorem lookup_upsert_self {α : Type} (l : List (String × α)) (k : String) (v : α) :
    (upsert l k v).lookup k = some v := by
  induction l with
  | nil => simp [upsert, List.lookup]
  | cons p rest ih =>
      obtain ⟨a, b⟩ := p
      by_cases h : a = k
      · subst h; simp [upsert, List.lookup]
      · have hb : (k == a) = false := beq_eq_false_iff_ne.mpr (fun e => h e.symm)
        simp [upsert, h, List.lookup, hb, ih]

theorem lookup_upsert_ne {α : Type} (l : List (String × α)) (k k' : String) (v : α)
    (h : k' ≠ k) : (upsert l k v).lookup k' = l.lookup k' := by
  induction l with
  | nil =>
      have hb : (k' == k) = false := beq_eq_false_iff_ne.mpr h
      simp [upsert, List.lookup, hb]
  | cons p rest ih =>
      obtain ⟨a, b⟩ := p
      by_cases ha : a = k
      · subst ha
        have hb : (k' == a) = false := beq_eq_false_iff_ne.mpr h
        simp [upsert, List.lookup, hb]
      · cases hc : (k' == a) <;>
          simp [upsert, ha, List.lookup, hc, ih]

/-! ## Character-level models of the Python string primitives -/

/-- `s.split(c)` for a single-character separator `c` (Python semantics:
always at least one field, empty fields preserved). -/
def pySplit (c : Char) : List Char → List String
  | [] => [""]
  | x :: xs =>
      if x = c then "" :: pySplit c xs
      else
        match pySplit c xs with
        | t :: ts => (⟨x :: t.data⟩ : String) :: ts
        | [] => [⟨[x]⟩]

/-- `s.split(c)` on a `String`. -/
def pySplitStr (c : Char) (s : String) : List String := pySplit c s.data

/-- `s.replace(c, d)` for single characters. -/
def pyReplaceChar (s : String) (c d : Char) : String :=
  ⟨s.data.map (fun x => if x = c then d else x)⟩

/-- `s.strip()`: drop whitespace from both ends. -/
def pyStrip (s : String) : String :=
  ⟨((s.data.dropWhile Char.isWhitespace).reverse.dropWhile Char.isWhitespace).reverse⟩

/-- `s.lower()` (per-character). -/
def pyLower (s : String) : String := ⟨s.data.map Char.toLower⟩

/-- `s.upper()` (per-character). -/
def pyUpper (s : String) : String := ⟨s.data.map Char.toUpper⟩

/-- `s.startswith(p)`. -/
def pyStartsWith (s p : String) : Bool := p.data.isPrefixOf s.data

/-- `s.isdigit()` (ASCII digits, the only case relevant to VCF positions). -/
def pyIsDigit (s : String) : Bool := !s.data.isEmpty && s.data.all Char.isDigit

/-- `int(s)` for a digit string. -/
def pyToNat (s : String) : Nat :=
  s.data.foldl (fun n c => n * 10 + (c.toNat - '0'.toNat)) 0

/-- `c.join(l)` for a single-character separator, used to model
`s.split(sep, 1)` as head plus rejoined tail. -/
def pyJoin (c : Char) : List String → String
  | [] => ""
  | [s] => s
  | s :: rest => ⟨s.data ++ c :: (pyJoin c rest).data⟩

/-! ## `src/core/vcf_parser.py` -/

/-- The `VCFVariant` dataclass. `pos` is a natural number: the source parses
the position with `int(pos) if pos.isdigit() else 0`, never negative. -/
structure VCFVariant where
  chrom : String
  pos : Nat
  rsid : String
  ref : String
  alt : String
  gene : Option String
  starAllele : Option String
  genotype : Option String
  zygosity : Option String
deriving Repr, DecidableEq

/-- `VCFParser.SUPPORTED_GENES` (a Python set; only membership is used). -/
def SUPPORTED_GENES : List String :=
  ["CYP2D6", "CYP2C19", "CYP2C9", "SLCO1B1", "TPMT", "DPYD"]

/-- `VCFParser._determine_zygosity`: `gt.replace("|", "/").split("/")`,
then classify on the allele tokens. -/
def determine_zygosity (gt : String) : String :=
  let alleles := pySplitStr '/' (pyReplaceChar gt '|' '/')
  if alleles.length = 2 then
    let a0 := alleles.getD 0 ""
    let a1 := alleles.getD 1 ""
    if a0 = a1 then
      if a0 ≠ "0" then "homozygous" else "homozygous_ref"
    else if alleles.contains "0" then "heterozygous"
    else "compound_heterozygous"
  else "unknown"

example : determine_zygosity "1/1" = "homozygous" := by decide
example : determine_zygosity "0|1" = "heterozygous" := by decide
example : determine_zygosity "1/2" = "compound_heterozygous" := by decide
example : determine_zygosity "0/0" = "homozygous_ref" := by decide
example : determine_zygosity "./." = "homozygous" := by decide
example : determine_zygosity "0/1/2" = "unknown" := by decide
example : determine_zygosity "1" = "unknown" := by decide

/-- `VCFParser._parse_info`: split the INFO field on `;`; every token
containing `=` is split at the first `=` into a stripped key/value pair and
assigned into the dict (later assignments overwrite). -/
def parse_info (info : String) : List (String × String) :=
  (pySplitStr ';' info).foldl
    (fun acc fld =>
      match pySplit '=' fld.data with
      | [] => acc
      | [_] => acc
      | k :: rest => upsert acc (pyStrip k) (pyStrip (pyJoin '=' rest)))
    []

/-- `VCFParser._parse_line`: strip, split on tabs, reject lines with fewer
than 8 fields, and build a `VCFVariant`.  The genotype token, when a tenth
field exists, is the part of that field before the first `:`. -/
def parse_line (line : String) : Option VCFVariant :=
  let fields := pySplitStr '\t' (pyStrip line)
  if fields.length < 8 then none
  else
    let chrom := fields.getD 0 ""
    let pos := fields.getD 1 ""
    let vid := fields.getD 2 ""
    let infoDict := parse_info (fields.getD 7 "")
    let gt : Option String × Option String :=
      if fields.length ≥ 10 then
        let gtRaw := (pySplitStr ':' (fields.getD 9 "")).getD 0 ""
        (some gtRaw, some (determine_zygosity gtRaw))
      else (none, none)
    some
      { chrom := chrom
        pos := if pyIsDigit pos then pyToNat pos else 0
        rsid := if vid ≠ "." then vid else "chr" ++ chrom ++ ":" ++ pos
        ref := fields.getD 3 ""
        alt := fields.getD 4 ""
        gene := infoDict.lookup "GENE"
        starAllele := infoDict.lookup "STAR"
        genotype := gt.1
        zygosity := gt.2 }

/-- The `quality` counters built by `VCFParser.parse`.  `genesFound` models
the Python set by a duplicate-free list in insertion order (the source
converts the set to a list of unspecified order at the end). -/
structure Quality where
  total : Nat
  parsed : Nat
  skipped : Nat
  genesFound : List String
deriving Repr, DecidableEq

/-- One iteration of the `for line in vcf_content.splitlines()` loop in
`VCFParser.parse`: metadata (`##`), the `#CHROM` header and blank lines are
passed over; every other line bumps `total` and then either `parsed` (line
parses and its gene is supported or absent) or `skipped`. -/
def parse_step (st : List VCFVariant × Quality) (line : String) :
    List VCFVariant × Quality :=
  let (vs, q) := st
  if pyStartsWith line "##" then st
  else if pyStartsWith line "#CHROM" then st
  else if pyStrip line = "" then st
  else
    let q := { q with total := q.total + 1 }
    match parse_line line with
    | some v =>
        if (match v.gene with
            | some g => SUPPORTED_GENES.contains g
            | none => true) then
          (vs ++ [v],
           { q with
              parsed := q.parsed + 1
              genesFound :=
                match v.gene with
                | some g =>
                    if g ≠ "" then
                      if q.genesFound.contains g then q.genesFound
                      else q.genesFound ++ [g]
                    else q.genesFound
                | none => q.genesFound })
        else (vs, { q with skipped := q.skipped + 1 })
    | none => (vs, { q with skipped := q.skipped + 1 })

/-- `VCFParser.parse` on a list of input lines. -/
def parse_lines (lines : List String) : List VCFVariant × Quality :=
  lines.foldl parse_step ([], ⟨0, 0, 0, []⟩)

/-- `VCFParser.parse` on raw text.  `str.splitlines()` is modelled by
splitting on `'\n'`; Python also breaks on `\r` and other rarer terminators
and drops a final empty chunk, but any such re-division only changes which
strings appear as lines, and the per-line counter accounting proved below
holds for every list of lines. -/
def parse (vcfContent : String) : List VCFVariant × Quality :=
  parse_lines (pySplitStr '\n' vcfContent)

example :
    (parse "##meta\n#CHROM\thdr\nchr22\t42130692\trs3892097\tG\tA\t.\t.\tGENE=CYP2D6;STAR=*4\tGT\t1/1\nbad line\n").2
      = ⟨2, 1, 1, ["CYP2D6"]⟩ := by decide

example :
    ((parse "chr22\t42130692\trs3892097\tG\tA\t.\t.\tGENE=CYP2D6;STAR=*4\tGT\t1|1\n").1.getD 0
      ⟨"", 0, "", "", "", none, none, none, none⟩).zygosity = some "homozygous" := by decide

/-! ## `src/core/variant_mapper.py` -/

/-- The dict emitted by `VariantMapper.enrich_variants` for one variant.
Every key is always assigned, so the fields are plain values. -/
structure EnrichedVariant where
  rsid : String
  gene : String
  starAllele : String
  zygosity : String
  effect : String
  clinicalSignificance : String
  chrom : String
  pos : Nat
  ref : String
  alt : String
  genotype : Option String
  source : String
deriving Repr, DecidableEq

/-- Python `a or b` for an optional string `a` and string default `b`
(`None` and `""` are falsy). -/
def pyStrOr (o : Option String) (d : String) : String :=
  match o with
  | some s => if s = "" then d else s
  | none => d

/-- A variant knowledge base: rsid → JSON object, each object an assoc list
of string fields (`src/core/variant_mapper.py` reads it with `.get`). -/
abbrev VariantDb := List (String × List (String × String))

/-- `self.db.get(rsid_lower) or self.db.get(v.rsid)` followed by the
truthiness test `if db_entry:`.  Returns `some entry` exactly when the
source takes the database branch, with the entry it uses (the first
non-empty dict among the two lookups; an empty dict is falsy). -/
def db_get (db : VariantDb) (v : VCFVariant) : Option (List (String × String)) :=
  match db.lookup (pyLower v.rsid) with
  | some e => if e.isEmpty then
      (match db.lookup v.rsid with
       | some e2 => if e2.isEmpty then none else some e2
       | none => none)
    else some e
  | none =>
      match db.lookup v.rsid with
      | some e2 => if e2.isEmpty then none else some e2
      | none => none

/-- The body of the `for v in variants` loop in
`VariantMapper.enrich_variants`: database branch, VCF-annotation branch, or
drop. -/
def enrich_one (db : VariantDb) (v : VCFVariant) : Option EnrichedVariant :=
  match db_get db v with
  | some e =>
      some
        { rsid := v.rsid
          gene := (e.lookup "gene").getD (pyStrOr v.gene "Unknown")
          starAllele := (e.lookup "star_allele").getD (pyStrOr v.starAllele "Unknown")
          zygosity := pyStrOr v.zygosity "unknown"
          effect := (e.lookup "effect").getD "unknown"
          clinicalSignificance := (e.lookup "clinical_significance").getD ""
          chrom := v.chrom
          pos := v.pos
          ref := v.ref
          alt := v.alt
          genotype := v.genotype
          source := "database" }
  | none =>
      match v.gene, v.starAllele with
      | some g, some sa =>
          if g ≠ "" ∧ sa ≠ "" then
            some
              { rsid := v.rsid
                gene := g
                starAllele := sa
                zygosity := pyStrOr v.zygosity "unknown"
                effect := "unknown"
                clinicalSignificance := "Annotated in VCF"
                chrom := v.chrom
                pos := v.pos
                ref := v.ref
                alt := v.alt
                genotype := v.genotype
                source := "vcf_annotation" }
          else none
      | _, _ => none

/-- `VariantMapper.enrich_variants`: one output per accepted input, order
preserved. -/
def enrich_variants (db : VariantDb) (vs : List VCFVariant) : List EnrichedVariant :=
  vs.filterMap (enrich_one db)

/-! ## Kernel-computable rational arithmetic

`Rat.add`/`Rat.mul` from Batteries are `@[irreducible]`, so concrete
evaluation by `decide` cannot unfold them.  The embeddings below therefore
use the `mkRat`-based equivalents `qAdd`/`qMul`, proved equal to `+`/`*`. -/

/-- Addition on `ℚ` via `mkRat` (equals `+`, see `qAdd_eq`). -/
def qAdd (a b : ℚ) : ℚ := mkRat (a.num * b.den + b.num * a.den) (a.den * b.den)

/-- Multiplication on `ℚ` via `mkRat` (equals `*`, see `qMul_eq`). -/
def qMul (a b : ℚ) : ℚ := mkRat (a.num * b.num) (a.den * b.den)

/-- Subtraction on `ℚ` via `mkRat` (equals `-`, see `qSub_eq`). -/
def qSub (a b : ℚ) : ℚ := mkRat (a.num * b.den - b.num * a.den) (a.den * b.den)

theorem qAdd_eq (a b : ℚ) : qAdd a b = a + b := by
  have ha : ((a.den : ℚ)) ≠ 0 := Nat.cast_ne_zero.mpr a.den_nz
  have hb : ((b.den : ℚ)) ≠ 0 := Nat.cast_ne_zero.mpr b.den_nz
  rw [qAdd, Rat.mkRat_eq_div]
  push_cast
  conv_rhs => rw [← Rat.num_div_den a, ← Rat.num_div_den b]
  rw [div_add_div _ _ ha hb]
  ring_nf

theorem qMul_eq (a b : ℚ) : qMul a b = a * b := by
  have ha : ((a.den : ℚ)) ≠ 0 := Nat.cast_ne_zero.mpr a.den_nz
  have hb : ((b.den : ℚ)) ≠ 0 := Nat.cast_ne_zero.mpr b.den_nz
  rw [qMul, Rat.mkRat_eq_div]
  push_cast
  conv_rhs => rw [← Rat.num_div_den a, ← Rat.num_div_den b]
  rw [div_mul_div_comm]

theorem qSub_eq (a b : ℚ) : qSub a b = a - b := by
  have h := qAdd_eq a (-b)
  rw [qAdd] at h
  rw [qSub]
  have hn : (-b).num = -b.num := Rat.neg_num b
  have hd : (-b).den = b.den := Rat.neg_den b
  rw [hn, hd] at h
  rw [show a.num * (b.den : ℤ) - b.num * a.den = a.num * b.den + -b.num * a.den by ring]
  rw [h, sub_eq_add_neg]

example : qAdd (mkRat 3 2) 1 = mkRat 5 2 := by decide
example : qSub (mkRat 5 2) 2 = mkRat 1 2 := by decide
example : qMul (mkRat 1 2) 2 = 1 := by decide

/-! ## `src/core/phenotype_predictor.py`

Activity scores are Python floats; every constant in this module is a
multiple of `1/100` and every score actually computed is a multiple of
`1/2`, on which 64-bit float arithmetic and comparison are exact, so `ℚ`
is a faithful model. -/

/-- `EFFECT_SCORE` (float constants as exact rationals). -/
def EFFECT_SCORE : List (String × ℚ) :=
  [("loss_of_function", 0),
   ("decreased_function", mkRat 1 2),
   ("normal_function", 1),
   ("increased_function", mkRat 3 2),
   ("unknown", 1)]

/-- `EFFECT_SCORE.get(effect, 1.0)`. -/
def effect_score (effect : String) : ℚ :=
  (EFFECT_SCORE.lookup effect).getD 1

/-- `SCORE_TO_PHENOTYPE`: the (low, high, phenotype) rows; `0.01` is
`mkRat 1 100`, and so on. -/
def SCORE_TO_PHENOTYPE : List (ℚ × ℚ × String) :=
  [(0, 0, "PM"),
   (mkRat 1 100, 1, "IM"),
   (mkRat 101 100, 2, "NM"),
   (mkRat 201 100, 3, "RM"),
   (mkRat 301 100, 99, "URM")]

/-- `PhenotypePredictor._score_to_phenotype`: the first row with
`low <= score <= high` wins, else `"Unknown"`. -/
def score_to_phenotype (score : ℚ) : String :=
  match SCORE_TO_PHENOTYPE.find? (fun b => decide (b.1 ≤ score) && decide (score ≤ b.2.1)) with
  | some b => b.2.2
  | none => "Unknown"

/-- Round-half-to-even on `ℚ`, the rounding Python's `round` uses. -/
def roundHalfEven (q : ℚ) : ℤ :=
  let fl := ⌊q⌋
  if decide (qSub q fl < mkRat 1 2) then fl
  else if decide (mkRat 1 2 < qSub q fl) then fl + 1
  else if fl % 2 = 0 then fl else fl + 1

/-- Python `round(x, 2)`.  On this code path the argument is always a
multiple of `1/2` (exactly representable as a float), where rounding to two
decimals is the identity, so float/rational discrepancies cannot arise. -/
def round2 (q : ℚ) : ℚ := mkRat (roundHalfEven (qMul 100 q)) 100

/-- `PhenotypePredictor._score_based`: filter the enriched variants by gene;
no match means `("NM", 2.0)`; otherwise accumulate the activity total over
the matches (homozygous doubles the effect value, heterozygous and
compound-heterozygous add the effect value plus a flat 1.0, anything else
adds the effect value alone) and band the rounded total.  The loop body is
`score_step`. -/
def score_step (acc : ℚ) (v : EnrichedVariant) : ℚ :=
  let alleleScore := effect_score v.effect
  if v.zygosity == "homozygous" then qAdd acc (qMul alleleScore 2)
  else if v.zygosity == "heterozygous" || v.zygosity == "compound_heterozygous" then
    qAdd (qAdd acc alleleScore) 1
  else qAdd acc alleleScore

/-- `PhenotypePredictor._score_based` proper: the gene filter, the
no-variant default, the `score_step` accumulation and the banding of the
rounded total. -/
def score_based (gene : String) (enrichedVariants : List EnrichedVariant) :
    String × ℚ :=
  let geneVariants := enrichedVariants.filter (fun v => v.gene == gene)
  if geneVariants.isEmpty then ("NM", 2)
  else
    let total := geneVariants.foldl score_step 0
    (score_to_phenotype total, round2 total)

example : score_to_phenotype 0 = "PM" := by decide
example : score_to_phenotype (mkRat 1 2) = "IM" := by decide
example : score_to_phenotype 2 = "NM" := by decide
example : score_to_phenotype (mkRat 5 2) = "RM" := by decide
example : score_to_phenotype 4 = "URM" := by decide
example : score_to_phenotype 100 = "Unknown" := by decide
example : score_to_phenotype (mkRat 1 200) = "Unknown" := by decide
example : round2 (mkRat 7 2) = mkRat 7 2 := by decide
example : round2 (mkRat 1 3) = mkRat 33 100 := by decide
example :
    score_based "CYP2D6"
      [{ rsid := "rs1", gene := "CYP2D6", starAllele := "*4", zygosity := "homozygous",
         effect := "loss_of_function", clinicalSignificance := "", chrom := "22",
         pos := 1, ref := "G", alt := "A", genotype := some "1/1", source := "database" }]
      = ("PM", 0) := by decide
example :
    score_based "CYP2D6"
      [{ rsid := "rs1", gene := "CYP2D6", starAllele := "*4", zygosity := "heterozygous",
         effect := "decreased_function", clinicalSignificance := "", chrom := "22",
         pos := 1, ref := "G", alt := "A", genotype := some "0/1", source := "database" }]
      = ("NM", mkRat 3 2) := by decide
example : score_based "CYP2D6" [] = ("NM", 2) := by decide

/-! ## `src/core/diplotype_caller.py` -/

/-- A gene's entry in `data/diplotype_phenotype.json`: a JSON object mixing
diplotype-string keys with the `default_no_variant` / `default_phenotype`
keys, all string valued. -/
abbrev GeneMap := List (String × String)

/-- The diplotype→phenotype table: gene → gene entry. -/
abbrev DpMap := List (String × GeneMap)

/-- The phenotype-resolution tail of `DiplotypeCaller.call_diplotype`
(lines 39–49): look the diplotype up in the gene's map; if the result is
falsy (absent or the empty string) retry with the two `/`-separated
segments swapped, defaulting to `"Unknown"`. -/
def resolve_phenotype (geneMap : GeneMap) (diplotype : String) : String :=
  let reversedLookup :=
    let parts := pySplitStr '/' diplotype
    (geneMap.lookup ((parts.getD 1 "") ++ "/" ++ (parts.getD 0 ""))).getD "Unknown"
  match geneMap.lookup diplotype with
  | some p => if p = "" then reversedLookup else p
  | none => reversedLookup

/-- `DiplotypeCaller.call_diplotype`: filter by gene; no matching variants
returns the gene's configured defaults; otherwise build the star-allele
list (a truthy, non-`"Unknown"` star allele contributes once, twice when
homozygous), pair the first two alleles (one allele is paired with `*1`),
and resolve the phenotype. -/
def call_diplotype (dpMap : DpMap) (enrichedVariants : List EnrichedVariant)
    (gene : String) : String × String :=
  let geneVariants := enrichedVariants.filter (fun v => v.gene == gene)
  if geneVariants.isEmpty then
    let entry := (dpMap.lookup gene).getD []
    ((entry.lookup "default_no_variant").getD "*1/*1",
     (entry.lookup "default_phenotype").getD "NM")
  else
    let starAlleles := geneVariants.foldl
      (fun acc v =>
        if v.starAllele ≠ "" ∧ v.starAllele ≠ "Unknown" then
          if v.zygosity == "homozygous" then acc ++ [v.starAllele, v.starAllele]
          else acc ++ [v.starAllele]
        else acc)
      []
    if starAlleles.isEmpty then ("*1/*1", "NM")
    else
      let diplotype :=
        if starAlleles.length = 1 then "*1/" ++ starAlleles.getD 0 ""
        else if starAlleles.length ≥ 2 then
          starAlleles.getD 0 "" ++ "/" ++ starAlleles.getD 1 ""
        else "*1/*1"
      (diplotype, resolve_phenotype ((dpMap.lookup gene).getD []) diplotype)

example :
    call_diplotype [("CYP2D6", [("*4/*4", "PM")])]
      [{ rsid := "rs3892097", gene := "CYP2D6", starAllele := "*4",
         zygosity := "homozygous", effect := "loss_of_function",
         clinicalSignificance := "", chrom := "22", pos := 42130692, ref := "G",
         alt := "A", genotype := some "1/1", source := "database" }]
      "CYP2D6" = ("*4/*4", "PM") := by decide
example :
    call_diplotype [("CYP2D6", [("*1/*4", "IM")])]
      [{ rsid := "rs3892097", gene := "CYP2D6", starAllele := "*4",
         zygosity := "heterozygous", effect := "loss_of_function",
         clinicalSignificance := "", chrom := "22", pos := 42130692, ref := "G",
         alt := "A", genotype := some "0/1", source := "database" }]
      "CYP2D6" = ("*1/*4", "IM") := by decide
example :
    call_diplotype [("CYP2C19", [("*2/*1", "IM")])]
      [{ rsid := "rs1", gene := "CYP2C19", starAllele := "*2",
         zygosity := "heterozygous", effect := "loss_of_function",
         clinicalSignificance := "", chrom := "10", pos := 1, ref := "G",
         alt := "A", genotype := some "0/1", source := "database" }]
      "CYP2C19" = ("*1/*2", "IM") := by decide
example : call_diplotype [] [] "CYP2D6" = ("*1/*1", "NM") := by decide
example :
    call_diplotype [("CYP2D6", [("default_no_variant", "*1/*1xN"), ("default_phenotype", "URM")])]
      [] "CYP2D6" = ("*1/*1xN", "URM") := by decide

/-! ## `src/core/risk_engine.py` -/

/-- One phenotype rule inside a drug's guideline entry.  The fields read
with a bare `rule[...]` subscript are required by the schema; those read
with `rule.get(...)` are optional. -/
structure Rule where
  riskLabel : String
  severity : String
  confidence : ℚ
  action : String
  doseAdjustment : Option String
  alternatives : Option (List String)
  monitoring : Option Bool
deriving Repr, DecidableEq

/-- One drug's entry in `data/cpic_guidelines.json`. -/
structure DrugEntry where
  primaryGene : Option String
  cpicRef : Option String
  rules : List (String × Rule)
deriving Repr, DecidableEq

/-- The guideline table: uppercase drug name → entry. -/
abbrev Guidelines := List (String × DrugEntry)

/-- The verdict dict returned by `RiskEngine.assess_risk`. -/
structure Verdict where
  drug : String
  gene : String
  cpicRef : String
  riskLabel : String
  severity : String
  confidenceScore : ℚ
  action : String
  doseAdjustment : String
  alternatives : List String
  monitoringRequired : Bool
deriving Repr, DecidableEq

/-- `RiskEngine._default_rule` (confidence 0.40). -/
def default_rule : Rule :=
  { riskLabel := "Unknown"
    severity := "low"
    confidence := mkRat 40 100
    action := "Insufficient data"
    doseAdjustment := some "Consult pharmacist"
    alternatives := some []
    monitoring := some true }

/-- `RiskEngine._unknown_drug` (confidence 0.30, monitoring forced true). -/
def unknown_drug (drug : String) : Verdict :=
  { drug := drug
    gene := "Unknown"
    cpicRef := "No CPIC guideline available"
    riskLabel := "Unknown"
    severity := "low"
    confidenceScore := mkRat 30 100
    action := "No pharmacogenomic guideline available for this drug"
    doseAdjustment := "Standard clinical judgment"
    alternatives := []
    monitoringRequired := true }

/-- `RiskEngine.assess_risk`: normalise the drug name with
`drug.upper().strip()`; a drug absent from the table yields the fixed
unknown-drug verdict; otherwise pick the phenotype's rule, falling back to
the entry's `Unknown` rule and then to `_default_rule`. -/
def assess_risk (guidelines : Guidelines) (drug phenotype gene : String) : Verdict :=
  let drugUpper := pyStrip (pyUpper drug)
  match guidelines.lookup drugUpper with
  | none => unknown_drug drugUpper
  | some entry =>
      let rule :=
        match entry.rules.lookup phenotype with
        | some r => r
        | none => (entry.rules.lookup "Unknown").getD default_rule
      { drug := drugUpper
        gene := entry.primaryGene.getD gene
        cpicRef := entry.cpicRef.getD ""
        riskLabel := rule.riskLabel
        severity := rule.severity
        confidenceScore := rule.confidence
        action := rule.action
        doseAdjustment := rule.doseAdjustment.getD "Consult clinician"
        alternatives := rule.alternatives.getD []
        monitoringRequired := rule.monitoring.getD false }

example :
    (assess_risk [] "codeine " "PM" "CYP2D6").riskLabel = "Unknown" := by decide
example :
    (assess_risk [] " warfarin" "NM" "CYP2C9").monitoringRequired = true := by decide
example :
    assess_risk [("CODEINE",
      { primaryGene := some "CYP2D6", cpicRef := some "ref",
        rules := [("PM", { riskLabel := "Ineffective", severity := "high",
                           confidence := mkRat 95 100, action := "Avoid codeine",
                           doseAdjustment := none, alternatives := some ["morphine"],
                           monitoring := some true })] })]
      "codeine" "PM" "CYP2D6"
      = { drug := "CODEINE", gene := "CYP2D6", cpicRef := "ref",
          riskLabel := "Ineffective", severity := "high",
          confidenceScore := mkRat 95 100, action := "Avoid codeine",
          doseAdjustment := "Consult clinician", alternatives := ["morphine"],
          monitoringRequired := true } := by decide

/-! ## `src/core/llm_explainer.py` — deterministic fallback and patching -/

/-- JSON values, the shape of fields in a parsed narrative-service
response. -/
inductive J where
  | str : String → J
  | num : ℚ → J
  | boolean : Bool → J
  | arr : List J → J
  | obj : List (String × J) → J
  | null : J

/-- Python truthiness of a JSON value (`not result[key]`):
`""`, `0`, `False`, `[]`, `{}` and `None` are falsy. -/
def jTruthy : J → Bool
  | .str s => s ≠ ""
  | .num q => q ≠ 0
  | .boolean b => b
  | .arr l => !l.isEmpty
  | .obj l => !l.isEmpty
  | .null => false

/-- `isinstance(v, list)`. -/
def jIsList : J → Bool
  | .arr _ => true
  | _ => false

/-- The four narrative fields produced by `_fallback_explanation`. -/
structure Narrative where
  summary : String
  mechanism : String
  clinicalContext : String
  references : List String
deriving Repr, DecidableEq

/-- `_fallback_explanation`: hardcoded narratives for the curated
(gene, phenotype, upper-cased drug) triples, else the generic templated
narrative.  The Python dict literal with tuple keys is modelled by the
equivalent chain of key tests; f-string interpolations become `++`. -/
def fallback_explanation (gene diplotype phenotype drug riskLabel action : String) :
    Narrative :=
  let drugUpper := pyUpper drug
  if gene = "CYP2D6" ∧ phenotype = "PM" ∧ drugUpper = "CODEINE" then
    { summary := "This patient carries the " ++ diplotype ++ " CYP2D6 diplotype, classifying them as a Poor Metabolizer. Codeine is contraindicated due to the inability to convert it to morphine, with risk of respiratory depression from toxic metabolite accumulation."
      mechanism := "CYP2D6 catalyzes the O-demethylation of codeine to morphine. The *4 allele introduces a splicing defect resulting in a non-functional enzyme. In *4/*4 homozygotes, this conversion is completely absent, causing codeine accumulation and preventing analgesic effect while increasing toxic metabolite burden."
      clinicalContext := "Prescribing codeine to this patient is contraindicated per CPIC guidelines. Switch to morphine or hydromorphone, which are not CYP2D6-dependent. Document the genetic finding in the patient\x27s chart."
      references := ["CPIC Guideline for Codeine and CYP2D6 (2022)", "PharmGKB: PA166104996", "Crews et al., Clin Pharmacol Ther 2014"] }
  else if gene = "CYP2D6" ∧ phenotype = "URM" ∧ drugUpper = "CODEINE" then
    { summary := "Patient is a CYP2D6 Ultrarapid Metabolizer (" ++ diplotype ++ "). Codeine is rapidly converted to morphine at dangerously high rates, risking fatal respiratory depression."
      mechanism := "Gene duplication or multiplication of functional CYP2D6 alleles leads to greatly amplified enzyme activity. Codeine is metabolized to morphine far faster than normal, flooding the system with active opioid."
      clinicalContext := "Codeine is contraindicated in URM patients. Even standard doses can cause life-threatening opioid toxicity. Use non-opioid alternatives or opioids not metabolized by CYP2D6."
      references := ["CPIC Guideline for Codeine and CYP2D6 (2022)", "FDA Drug Safety Communication on Codeine"] }
  else if gene = "CYP2C19" ∧ phenotype = "PM" ∧ drugUpper = "CLOPIDOGREL" then
    { summary := "This patient is a CYP2C19 Poor Metabolizer (" ++ diplotype ++ "). Clopidogrel cannot be converted to its active form, rendering it ineffective as an antiplatelet agent."
      mechanism := "CYP2C19 activates clopidogrel via two-step oxidation to an active thiol metabolite that irreversibly inhibits the P2Y12 platelet receptor. In PM patients, this activation pathway is blocked, resulting in no platelet inhibition."
      clinicalContext := "Switch to prasugrel or ticagrelor, which do not require CYP2C19 activation. These alternatives provide reliable antiplatelet effect regardless of CYP2C19 status."
      references := ["CPIC Guideline for Clopidogrel and CYP2C19 (2022)", "PharmGKB: PA166104999"] }
  else if gene = "CYP2C9" ∧ phenotype = "PM" ∧ drugUpper = "WARFARIN" then
    { summary := "Patient is a CYP2C9 Poor Metabolizer (" ++ diplotype ++ "). Warfarin clearance is severely reduced, causing drug accumulation and elevated bleeding risk at standard doses."
      mechanism := "CYP2C9 is the primary enzyme responsible for S-warfarin hydroxylation and clearance. Loss-of-function alleles reduce enzyme activity, prolonging warfarin half-life and increasing anticoagulant effect at standard doses."
      clinicalContext := "Reduce initial warfarin dose by 50-75%. Increase INR monitoring frequency during initiation phase. Consider using a pharmacogenomic dosing algorithm."
      references := ["CPIC Guideline for Warfarin (2017)", "PharmGKB: PA166104979", "IWPC Warfarin Dosing Algorithm"] }
  else if gene = "SLCO1B1" ∧ phenotype = "PM" ∧ drugUpper = "SIMVASTATIN" then
    { summary := "Patient has reduced SLCO1B1 transporter function (" ++ diplotype ++ "), impairing hepatic uptake of simvastatin and raising plasma drug levels with high myopathy risk."
      mechanism := "SLCO1B1 encodes the OATP1B1 hepatic uptake transporter. The *5 variant reduces transporter activity, causing simvastatin to remain in systemic circulation at elevated concentrations, increasing skeletal muscle exposure and toxicity risk."
      clinicalContext := "Avoid high-dose simvastatin. Switch to pravastatin or rosuvastatin which are less dependent on SLCO1B1 transport. If simvastatin is continued, cap at 20mg/day and monitor for muscle symptoms."
      references := ["CPIC Guideline for Simvastatin and SLCO1B1 (2022)", "PharmGKB: PA166105003"] }
  else if gene = "TPMT" ∧ phenotype = "PM" ∧ drugUpper = "AZATHIOPRINE" then
    { summary := "Patient is a TPMT Poor Metabolizer (" ++ diplotype ++ "). Azathioprine cannot be safely metabolized, causing life-threatening myelosuppression at standard doses."
      mechanism := "TPMT inactivates thiopurine drugs by S-methylation. In PM patients, lack of TPMT activity causes accumulation of cytotoxic 6-thioguanine nucleotides in hematopoietic cells, leading to severe bone marrow suppression."
      clinicalContext := "Azathioprine is contraindicated at standard doses. If thiopurine therapy is necessary, reduce dose to 10% of standard and monitor CBC weekly. Consider switching to mycophenolate mofetil."
      references := ["CPIC Guideline for Thiopurines and TPMT (2022)", "PharmGKB: PA166104984"] }
  else if gene = "DPYD" ∧ phenotype = "PM" ∧ drugUpper = "FLUOROURACIL" then
    { summary := "Patient is a DPYD Poor Metabolizer (" ++ diplotype ++ "). Fluorouracil cannot be adequately catabolized, resulting in severe and potentially fatal drug toxicity."
      mechanism := "DPYD (dihydropyrimidine dehydrogenase) is responsible for >80% of fluorouracil catabolism. Loss-of-function variants cause fluorouracil accumulation, leading to severe gastrointestinal, hematological, and neurological toxicity."
      clinicalContext := "Fluorouracil is contraindicated in DPYD PM patients. If fluoropyrimidine therapy is unavoidable, reduce dose by 50% minimum under specialist supervision with close toxicity monitoring."
      references := ["CPIC Guideline for Fluoropyrimidines and DPYD (2023)", "PharmGKB: PA166109603"] }
  else
    { summary := "Patient has " ++ gene ++ " " ++ diplotype ++ " diplotype (" ++ phenotype ++ " phenotype), resulting in " ++ riskLabel ++ " risk for " ++ drug ++ ". " ++ action
      mechanism := gene ++ " enzyme activity is altered by the " ++ diplotype ++ " diplotype. This directly affects the metabolism of " ++ drug ++ ", changing its plasma concentration and clinical effect."
      clinicalContext := action
      references := ["CPIC Guidelines — cpicpgx.org", "PharmGKB — pharmgkb.org", "PharmVar — pharmvar.org"] }

/-- The fallback's JSON value for one required key (`fallback[key]`). -/
def fallback_field (fb : Narrative) (key : String) : J :=
  if key = "summary" then .str fb.summary
  else if key = "mechanism" then .str fb.mechanism
  else if key = "clinical_context" then .str fb.clinicalContext
  else .arr (fb.references.map .str)

/-- One iteration of the `for key in required_keys` loop of
`_validate_and_fill`: `if key not in result or not result[key]:
result[key] = fallback[key]`. -/
def fill_step (fb : Narrative) (r : List (String × J)) (key : String) :
    List (String × J) :=
  match r.lookup key with
  | some v => if jTruthy v then r else upsert r key (fallback_field fb key)
  | none => upsert r key (fallback_field fb key)

/-- `_validate_and_fill`: patch each of the four required keys from the
deterministic fallback when missing or falsy, then replace `references`
wholesale if it is not a list. -/
def validate_and_fill (result : List (String × J))
    (gene diplotype phenotype drug riskLabel action : String) :
    List (String × J) :=
  let fb := fallback_explanation gene diplotype phenotype drug riskLabel action
  let r1 := ["summary", "mechanism", "clinical_context", "references"].foldl
    (fill_step fb) result
  match r1.lookup "references" with
  | some v => if jIsList v then r1 else upsert r1 "references" (.arr (fb.references.map .str))
  | none => upsert r1 "references" (.arr (fb.references.map .str))

example :
    validate_and_fill
      [("summary", .str "ok"), ("mechanism", .str ""), ("references", .str "not a list")]
      "G1" "*1/*2" "IM" "drugx" "Unknown" "act"
      = [("summary", .str "ok"),
         ("mechanism", .str ("G1 enzyme activity is altered by the *1/*2 diplotype. This directly affects the metabolism of drugx, changing its plasma concentration and clinical effect.")),
         ("references", .arr [.str "CPIC Guidelines — cpicpgx.org", .str "PharmGKB — pharmgkb.org", .str "PharmVar — pharmvar.org"]),
         ("clinical_context", .str "act")] := by rfl

/-! ## Claims -/

/-- C3: genotype `"1/1"` yields zygosity `homozygous`, `"0/1"` yields
`heterozygous`, `"1/2"` yields `compound_heterozygous`, `"0/0"` yields
`homozygous_ref`, and any genotype that does not split into exactly two
allele tokens (on `/` or `|`) yields `unknown`. -/
theorem claim_C3 :
    determine_zygosity "1/1" = "homozygous" ∧
    determine_zygosity "0/1" = "heterozygous" ∧
    determine_zygosity "1/2" = "compound_heterozygous" ∧
    determine_zygosity "0/0" = "homozygous_ref" ∧
    ∀ gt : String, (pySplitStr '/' (pyReplaceChar gt '|' '/')).length ≠ 2 →
      determine_zygosity gt = "unknown" := by
  refine ⟨by decide, by decide, by decide, by decide, ?_⟩
  intro gt h
  simp [determine_zygosity, h]

/-- Witness for C3 at the concrete genotype `"0/1/2"` (three allele
tokens). -/
theorem claim_C3_witness : determine_zygosity "0/1/2" = "unknown" :=
  claim_C3.2.2.2.2 "0/1/2" (by decide)

/-- C10: a genotype whose two allele tokens are identical and not `"0"` is
classified `homozygous` even when the tokens are not numeric; in particular
`"./."` is homozygous rather than unknown. -/
theorem claim_C10 :
    ∀ (gt a : String), pySplitStr '/' (pyReplaceChar gt '|' '/') = [a, a] →
      a ≠ "0" → determine_zygosity gt = "homozygous" := by
  intro gt a h ha
  simp [determine_zygosity, h, ha]

/-- Witness for C10 at the missing-data genotype `"./."`. -/
theorem claim_C10_witness : determine_zygosity "./." = "homozygous" :=
  claim_C10 "./." "." (by decide) (by decide)

/-- C4: diplotype phenotype lookup is order-insensitive: when `"A/B"` is
absent from the gene's table the resolver returns the phenotype recorded
for `"B/A"`, and `"Unknown"` when that is absent as well. -/
theorem claim_C4 :
    ∀ (geneMap : GeneMap) (d A B : String),
      pySplitStr '/' d = [A, B] → geneMap.lookup d = none →
      resolve_phenotype geneMap d = (geneMap.lookup (B ++ "/" ++ A)).getD "Unknown" := by
  intro geneMap d A B hsplit habsent
  simp [resolve_phenotype, hsplit, habsent]

/-- Witness for C4: `*1/*4` absent, `*4/*1` present, resolves to the
phenotype recorded for `*4/*1`. -/
theorem claim_C4_witness :
    resolve_phenotype [("*4/*1", "IM")] "*1/*4" = "IM" := by
  have h := claim_C4 [("*4/*1", "IM")] "*1/*4" "*1" "*4" (by decide) (by decide)
  simpa using h

/-- C5: with no variant matching the gene, diplotype calling returns the
gene's configured no-variant defaults (falling back to `*1/*1` / `NM` when
the gene has no entry); being a total function, it never raises. -/
theorem claim_C5 :
    ∀ (dpMap : DpMap) (enrichedVariants : List EnrichedVariant) (gene : String),
      enrichedVariants.filter (fun v => v.gene == gene) = [] →
      (∀ entry, dpMap.lookup gene = some entry →
        call_diplotype dpMap enrichedVariants gene =
          ((entry.lookup "default_no_variant").getD "*1/*1",
           (entry.lookup "default_phenotype").getD "NM")) ∧
      (dpMap.lookup gene = none →
        call_diplotype dpMap enrichedVariants gene = ("*1/*1", "NM")) := by
  intro dpMap enrichedVariants gene hfilter
  constructor
  · intro entry hentry
    simp [call_diplotype, hfilter, hentry]
  · intro hnone
    simp [call_diplotype, hfilter, hnone, List.lookup]

/-- Witness for C5: a gene with configured defaults and no matching
variants resolves to those defaults. -/
theorem claim_C5_witness :
    call_diplotype
      [("CYP2D6", [("default_no_variant", "*1/*1xN"), ("default_phenotype", "URM")])]
      [] "CYP2D6" = ("*1/*1xN", "URM") := by
  have h := (claim_C5
    [("CYP2D6", [("default_no_variant", "*1/*1xN"), ("default_phenotype", "URM")])]
    [] "CYP2D6" (by decide)).1
    [("default_no_variant", "*1/*1xN"), ("default_phenotype", "URM")] (by decide)
  simpa using h

/-- C7: a drug with no guideline entry (after uppercasing and stripping)
gets risk label `"Unknown"`, forced monitoring, confidence at most 0.5, and
is never labelled `"Safe"`. -/
theorem claim_C7 :
    ∀ (guidelines : Guidelines) (drug phenotype gene : String),
      guidelines.lookup (pyStrip (pyUpper drug)) = none →
      (assess_risk guidelines drug phenotype gene).riskLabel = "Unknown" ∧
      (assess_risk guidelines drug phenotype gene).monitoringRequired = true ∧
      (assess_risk guidelines drug phenotype gene).confidenceScore ≤ mkRat 1 2 ∧
      (assess_risk guidelines drug phenotype gene).riskLabel ≠ "Safe" := by
  intro guidelines drug phenotype gene habsent
  have h : assess_risk guidelines drug phenotype gene =
      unknown_drug (pyStrip (pyUpper drug)) := by
    simp [assess_risk, habsent]
  rw [h]
  refine ⟨rfl, rfl, ?_, ?_⟩
  · show mkRat 30 100 ≤ mkRat 1 2
    decide
  · show "Unknown" ≠ "Safe"
    decide

/-- Witness for C7 at an empty guideline table and the drug `"aspirin "`. -/
theorem claim_C7_witness :
    (assess_risk [] "aspirin " "NM" "CYP2D6").riskLabel = "Unknown" ∧
    (assess_risk [] "aspirin " "NM" "CYP2D6").monitoringRequired = true ∧
    (assess_risk [] "aspirin " "NM" "CYP2D6").confidenceScore ≤ mkRat 1 2 ∧
    (assess_risk [] "aspirin " "NM" "CYP2D6").riskLabel ≠ "Safe" :=
  claim_C7 [] "aspirin " "NM" "CYP2D6" (by decide)

/-- A successful truthy database lookup comes from one of the two dict
probes (`rsid.lower()` first, then the exact rsid). -/
theorem db_get_lookup {db : VariantDb} {v : VCFVariant}
    {entry : List (String × String)} (hget : db_get db v = some entry) :
    db.lookup (pyLower v.rsid) = some entry ∨ db.lookup v.rsid = some entry := by
  unfold db_get at hget
  rcases h1 : db.lookup (pyLower v.rsid) with _ | e1
  · rcases h2 : db.lookup v.rsid with _ | e2
    · simp [h1, h2] at hget
    · by_cases h3 : e2.isEmpty <;> simp [h1, h2, h3] at hget
      right
      rw [hget]
  · by_cases h3 : e1.isEmpty
    · rcases h2 : db.lookup v.rsid with _ | e2
      · simp [h1, h2, h3] at hget
      · by_cases h4 : e2.isEmpty <;> simp [h1, h2, h3, h4] at hget
        right
        rw [hget]
    · simp [h1, h3] at hget
      left
      rw [hget]

/-- C6: against a variant knowledge base obeying the spec's data contract
(every entry carries a `gene` field), a record for which neither the
knowledge base nor the record's own annotation supplies a gene is dropped
by the enricher, and every emitted enriched variant takes its gene from the
matched database entry or from the record's annotation. -/
theorem claim_C6 :
    ∀ (db : VariantDb),
      (∀ k entry, db.lookup k = some entry → (entry.lookup "gene").isSome) →
      ∀ v : VCFVariant,
        ((db_get db v = none ∧ (v.gene = none ∨ v.gene = some "")) →
          enrich_one db v = none) ∧
        (∀ e, enrich_one db v = some e →
          (∃ entry, db_get db v = some entry ∧ entry.lookup "gene" = some e.gene) ∨
          (db_get db v = none ∧ v.gene = some e.gene)) := by
  intro db hdb v
  constructor
  · rintro ⟨hget, hgene⟩
    unfold enrich_one
    rcases hgene with h | h <;>
      rcases hs : v.starAllele with _ | sa <;>
        simp [hget, h, hs]
  · intro e he
    unfold enrich_one at he
    rcases hget : db_get db v with _ | entry
    · right
      refine ⟨rfl, ?_⟩
      rcases hgene : v.gene with _ | g <;>
        rcases hs : v.starAllele with _ | sa <;>
          simp [hget, hgene, hs] at he
      by_cases hcg : g = ""
      · simp [hcg] at he
      · by_cases hcs : sa = ""
        · simp [hcg, hcs] at he
        · simp [hcg, hcs] at he
          subst he
          simp [hgene]
    · left
      refine ⟨entry, rfl, ?_⟩
      have hsome : (entry.lookup "gene").isSome := by
        rcases db_get_lookup hget with h | h
        · exact hdb _ _ h
        · exact hdb _ _ h
      obtain ⟨g, hg⟩ := Option.isSome_iff_exists.mp hsome
      simp [hget] at he
      subst he
      rw [hg]
      simp

/-- Witness for C6: a record absent from the knowledge base with no gene
annotation is dropped. -/
theorem claim_C6_witness :
    enrich_one [("rs1", [("gene", "CYP2D6")])]
      { chrom := "22", pos := 5, rsid := "rs99", ref := "G", alt := "A",
        gene := none, starAllele := some "*4", genotype := some "0/1",
        zygosity := some "heterozygous" } = none :=
  (claim_C6 [("rs1", [("gene", "CYP2D6")])]
    (by
      intro k entry hk
      simp only [List.lookup] at hk
      rcases hk2 : (k == "rs1") with _ | _ <;> rw [hk2] at hk
      · cases hk
      · injection hk with hk'
        rw [← hk']
        decide)
    _).1 ⟨by decide, Or.inl rfl⟩

/-- A line of VCF text that reaches the counting branch of
`VCFParser.parse`: not `##` metadata, not the `#CHROM` header, not blank. -/
def counts_as_data (line : String) : Bool :=
  !(pyStartsWith line "##") && !(pyStartsWith line "#CHROM") && (pyStrip line != "")

/-- Counter bookkeeping of the parse loop, generalised over the starting
state: `total` grows by the number of data lines, and `parsed + skipped`
grows by exactly the same amount. -/
theorem parse_lines_counters (lines : List String) :
    ∀ (vs : List VCFVariant) (q : Quality),
      ((lines.foldl parse_step (vs, q)).2.total =
        q.total + lines.countP counts_as_data) ∧
      ((lines.foldl parse_step (vs, q)).2.parsed +
        (lines.foldl parse_step (vs, q)).2.skipped =
        q.parsed + q.skipped + lines.countP counts_as_data) := by
  induction lines with
  | nil => intro vs q; simp
  | cons l rest ih =>
      intro vs q
      rw [List.foldl_cons]
      by_cases c1 : pyStartsWith l "##"
      · have hstep : parse_step (vs, q) l = (vs, q) := by simp [parse_step, c1]
        rw [hstep]
        have hc : counts_as_data l = false := by simp [counts_as_data, c1]
        rcases ih vs q with ⟨h1, h2⟩
        constructor <;> simp [List.countP_cons, hc, h1, h2]
      · by_cases c2 : pyStartsWith l "#CHROM"
        · have hstep : parse_step (vs, q) l = (vs, q) := by simp [parse_step, c1, c2]
          rw [hstep]
          have hc : counts_as_data l = false := by simp [counts_as_data, c2]
          rcases ih vs q with ⟨h1, h2⟩
          constructor <;> simp [List.countP_cons, hc, h1, h2]
        · by_cases c3 : pyStrip l = ""
          · have hstep : parse_step (vs, q) l = (vs, q) := by simp [parse_step, c1, c2, c3]
            rw [hstep]
            have hc : counts_as_data l = false := by simp [counts_as_data, c3]
            rcases ih vs q with ⟨h1, h2⟩
            constructor <;> simp [List.countP_cons, hc, h1, h2]
          · have hc : counts_as_data l = true := by
              simp [counts_as_data, c1, c2, c3]
            rcases hp : parse_line l with _ | v
            · have hstep : parse_step (vs, q) l =
                  (vs, { q with total := q.total + 1, skipped := q.skipped + 1 }) := by
                simp [parse_step, c1, c2, c3, hp]
              rw [hstep]
              rcases ih vs { q with total := q.total + 1, skipped := q.skipped + 1 } with ⟨h1, h2⟩
              constructor <;> (simp [List.countP_cons, hc, h1, h2]; omega)
            · rcases hvg : v.gene with _ | g
              · have hstep : parse_step (vs, q) l =
                    (vs ++ [v], { q with total := q.total + 1, parsed := q.parsed + 1 }) := by
                  simp [parse_step, c1, c2, c3, hp, hvg]
                rw [hstep]
                rcases ih (vs ++ [v])
                  { q with total := q.total + 1, parsed := q.parsed + 1 } with ⟨h1, h2⟩
                constructor <;> (simp [List.countP_cons, hc, h1, h2]; omega)
              · by_cases hsg : SUPPORTED_GENES.contains g = true
                · have hmem : g ∈ SUPPORTED_GENES := by simpa using hsg
                  have hstep : parse_step (vs, q) l =
                      (vs ++ [v],
                       { q with
                          total := q.total + 1
                          parsed := q.parsed + 1
                          genesFound :=
                            if g = "" then q.genesFound
                            else if g ∈ q.genesFound then q.genesFound
                            else q.genesFound ++ [g] }) := by
                    simp [parse_step, c1, c2, c3, hp, hvg, hmem]
                  rw [hstep]
                  rcases ih (vs ++ [v])
                    { q with
                        total := q.total + 1
                        parsed := q.parsed + 1
                        genesFound :=
                          if g = "" then q.genesFound
                          else if g ∈ q.genesFound then q.genesFound
                          else q.genesFound ++ [g] } with ⟨h1, h2⟩
                  constructor <;> (simp [List.countP_cons, hc, h1, h2]; omega)
                · have hnmem : g ∉ SUPPORTED_GENES := by simpa using hsg
                  have hstep : parse_step (vs, q) l =
                      (vs, { q with total := q.total + 1, skipped := q.skipped + 1 }) := by
                    simp [parse_step, c1, c2, c3, hp, hvg, hnmem]
                  rw [hstep]
                  rcases ih vs
                    { q with total := q.total + 1, skipped := q.skipped + 1 } with ⟨h1, h2⟩
                  constructor <;> (simp [List.countP_cons, hc, h1, h2]; omega)

/-- C8: for every VCF input text the quality counters satisfy
`parsed + skipped = total`, and `total` counts exactly the lines that are
not `##` metadata, not the `#CHROM` header, and not blank. -/
theorem claim_C8 :
    ∀ vcfContent : String,
      (parse vcfContent).2.parsed + (parse vcfContent).2.skipped =
        (parse vcfContent).2.total ∧
      (parse vcfContent).2.total =
        (pySplitStr '\n' vcfContent).countP counts_as_data := by
  intro content
  rcases parse_lines_counters (pySplitStr '\n' content) [] ⟨0, 0, 0, []⟩ with ⟨h1, h2⟩
  unfold parse parse_lines
  constructor
  · rw [h2, h1]
    simp
  · rw [h1]
    simp

/-- The per-effect base activity value as the claim states it:
loss_of_function 0, decreased_function 0.5, normal_function 1.0,
increased_function 1.5, unknown or unrecognized 1.0. -/
def effect_value (effect : String) : ℚ :=
  if effect = "loss_of_function" then 0
  else if effect = "decreased_function" then 1/2
  else if effect = "normal_function" then 1
  else if effect = "increased_function" then 3/2
  else 1

/-- The source's `EFFECT_SCORE.get(effect, 1.0)` agrees with the claimed
base-value table. -/
theorem effect_score_eq (e : String) : effect_score e = effect_value e := by
  unfold effect_score EFFECT_SCORE effect_value
  by_cases h1 : e = "loss_of_function"
  · simp [List.lookup, h1]
  · by_cases h2 : e = "decreased_function"
    · simp [List.lookup, h1, h2, Rat.mkRat_eq_div]
    · by_cases h3 : e = "normal_function"
      · simp [List.lookup, h1, h2, h3]
      · by_cases h4 : e = "increased_function"
        · simp [List.lookup, h1, h2, h3, h4, Rat.mkRat_eq_div]
        · by_cases h5 : e = "unknown"
          · simp [List.lookup, h1, h2, h3, h4, h5]
          · have b1 : (e == "loss_of_function") = false := by simpa using h1
            have b2 : (e == "decreased_function") = false := by simpa using h2
            have b3 : (e == "normal_function") = false := by simpa using h3
            have b4 : (e == "increased_function") = false := by simpa using h4
            have b5 : (e == "unknown") = false := by simpa using h5
            simp [List.lookup, b1, b2, b3, b4, b5, h1, h2, h3, h4, h5]

/-- The contribution of one enriched variant to the activity total, exactly
as the claim words it: homozygous doubles the base value, heterozygous and
compound-heterozygous add the base value plus a flat 1.0, any other
zygosity adds the base value alone. -/
def contribution (v : EnrichedVariant) : ℚ :=
  let s := effect_value v.effect
  if v.zygosity = "homozygous" then 2 * s
  else if v.zygosity = "heterozygous" ∨ v.zygosity = "compound_heterozygous" then s + 1
  else s

/-- One accumulation step of `_score_based` adds exactly the variant's
contribution. -/
theorem score_step_eq (acc : ℚ) (v : EnrichedVariant) :
    score_step acc v = acc + contribution v := by
  simp only [score_step, contribution, qAdd_eq, qMul_eq, effect_score_eq,
    beq_iff_eq, Bool.or_eq_true]
  split_ifs <;> ring

/-- The `_score_based` accumulation loop computes the sum of
contributions. -/
theorem score_foldl_sum (l : List EnrichedVariant) :
    ∀ acc : ℚ, l.foldl score_step acc = acc + (l.map contribution).sum := by
  induction l with
  | nil => intro acc; simp
  | cons v rest ih =>
      intro acc
      rw [List.foldl_cons, ih, score_step_eq]
      simp [add_assoc]

/-- Every base value is half an integer. -/
theorem effect_value_halfint (e : String) :
    ∃ n : ℤ, effect_value e = (n : ℚ) / 2 := by
  unfold effect_value
  split_ifs
  · exact ⟨0, by norm_num⟩
  · exact ⟨1, by norm_num⟩
  · exact ⟨2, by norm_num⟩
  · exact ⟨3, by norm_num⟩
  · exact ⟨2, by norm_num⟩

/-- Every single-variant contribution is half an integer. -/
theorem contribution_halfint (v : EnrichedVariant) :
    ∃ n : ℤ, contribution v = (n : ℚ) / 2 := by
  obtain ⟨m, hm⟩ := effect_value_halfint v.effect
  unfold contribution
  split_ifs
  · exact ⟨2 * m, by rw [hm]; push_cast; ring⟩
  · exact ⟨m + 2, by rw [hm]; push_cast; ring⟩
  · exact ⟨m, by rw [hm]⟩

/-- Every total activity score is half an integer. -/
theorem sum_contribution_halfint (l : List EnrichedVariant) :
    ∃ n : ℤ, (l.map contribution).sum = (n : ℚ) / 2 := by
  induction l with
  | nil => exact ⟨0, by simp⟩
  | cons v rest ih =>
      obtain ⟨m, hm⟩ := contribution_halfint v
      obtain ⟨n, hn⟩ := ih
      refine ⟨m + n, ?_⟩
      rw [List.map_cons, List.sum_cons, hm, hn]
      push_cast
      ring

/-- Round-half-even fixes integers. -/
theorem roundHalfEven_intCast (n : ℤ) : roundHalfEven ((n : ℤ) : ℚ) = n := by
  unfold roundHalfEven
  simp only [qSub_eq, Int.floor_intCast, sub_self, Rat.mkRat_eq_div]
  norm_num

/-- Python `round(x, 2)` is the identity on half-integers. -/
theorem round2_halfint (n : ℤ) : round2 ((n : ℚ) / 2) = (n : ℚ) / 2 := by
  unfold round2
  have h100 : qMul 100 ((n : ℚ) / 2) = ((50 * n : ℤ) : ℚ) := by
    rw [qMul_eq]
    push_cast
    ring
  rw [h100, roundHalfEven_intCast, Rat.mkRat_eq_div]
  push_cast
  rw [div_eq_div_iff (by norm_num) (by norm_num)]
  ring

/-- C2: with at least one variant matching the gene, score-based prediction
returns the banded sum of per-variant contributions (effect base value,
doubled when homozygous, plus a flat 1.0 when heterozygous or
compound-heterozygous) together with that sum as the activity score; with
no matching variant it returns `("NM", 2.0)`. -/
theorem claim_C2 :
    ∀ (gene : String) (enrichedVariants : List EnrichedVariant),
      (enrichedVariants.filter (fun v => v.gene == gene) ≠ [] →
        score_based gene enrichedVariants =
          (score_to_phenotype
            (((enrichedVariants.filter (fun v => v.gene == gene)).map contribution).sum),
           ((enrichedVariants.filter (fun v => v.gene == gene)).map contribution).sum)) ∧
      (enrichedVariants.filter (fun v => v.gene == gene) = [] →
        score_based gene enrichedVariants = ("NM", 2)) := by
  intro gene evs
  constructor
  · intro hne
    have hem : (evs.filter (fun v => v.gene == gene)).isEmpty = false := by
      simpa [List.isEmpty_iff] using hne
    simp only [score_based]
    rw [hem]
    simp only [Bool.false_eq_true, if_false]
    rw [score_foldl_sum, zero_add]
    obtain ⟨n, hn⟩ := sum_contribution_halfint (evs.filter (fun v => v.gene == gene))
    rw [hn, round2_halfint]
  · intro he
    simp [score_based, he]

/-- Concrete input for the C2 witness: one homozygous decreased-function
variant and one heterozygous increased-function variant for CYP2D6, plus a
variant for another gene. -/
def c2WitnessList : List EnrichedVariant :=
  [{ rsid := "rs1", gene := "CYP2D6", starAllele := "*41", zygosity := "homozygous",
     effect := "decreased_function", clinicalSignificance := "", chrom := "22",
     pos := 1, ref := "G", alt := "A", genotype := some "1/1", source := "database" },
   { rsid := "rs2", gene := "CYP2C19", starAllele := "*17", zygosity := "heterozygous",
     effect := "increased_function", clinicalSignificance := "", chrom := "10",
     pos := 2, ref := "C", alt := "T", genotype := some "0/1", source := "database" },
   { rsid := "rs3", gene := "CYP2D6", starAllele := "*9", zygosity := "heterozygous",
     effect := "increased_function", clinicalSignificance := "", chrom := "22",
     pos := 3, ref := "A", alt := "G", genotype := some "0/1", source := "database" }]

/-- Witness for C2 at `c2WitnessList`. -/
theorem claim_C2_witness :
    score_based "CYP2D6" c2WitnessList =
      (score_to_phenotype
        (((c2WitnessList.filter (fun v => v.gene == "CYP2D6")).map contribution).sum),
       ((c2WitnessList.filter (fun v => v.gene == "CYP2D6")).map contribution).sum) :=
  (claim_C2 "CYP2D6" c2WitnessList).1 (by decide)

/-- `List.find?` through a cons, in `if` form. -/
theorem find?_cons_ite {α : Type} (p : α → Bool) (a : α) (l : List α) :
    (a :: l).find? p = if p a then some a else l.find? p := by
  cases h : p a <;> simp [List.find?_cons, h]

/-- Closed form of the banding function: the five `(low, high)` window
tests in order, else `"Unknown"`. -/
theorem score_to_phenotype_eq (s : ℚ) :
    score_to_phenotype s =
      if 0 ≤ s ∧ s ≤ 0 then "PM"
      else if mkRat 1 100 ≤ s ∧ s ≤ 1 then "IM"
      else if mkRat 101 100 ≤ s ∧ s ≤ 2 then "NM"
      else if mkRat 201 100 ≤ s ∧ s ≤ 3 then "RM"
      else if mkRat 301 100 ≤ s ∧ s ≤ 99 then "URM"
      else "Unknown" := by
  unfold score_to_phenotype SCORE_TO_PHENOTYPE
  rw [find?_cons_ite, find?_cons_ite, find?_cons_ite, find?_cons_ite, find?_cons_ite]
  simp only [List.find?_nil, Bool.and_eq_true, decide_eq_true_eq]
  split_ifs <;> rfl

/-- The banding of the claim's words: score 0 is PM, `(0,1]` is IM,
`(1,2]` is NM, `(2,3]` is RM, above 3 is URM (for non-negative scores). -/
def score_band_spec (s : ℚ) : String :=
  if s = 0 then "PM"
  else if s ≤ 1 then "IM"
  else if s ≤ 2 then "NM"
  else if s ≤ 3 then "RM"
  else "URM"

theorem score_band_spec_ne_unknown (s : ℚ) : score_band_spec s ≠ "Unknown" := by
  unfold score_band_spec
  split_ifs <;> decide

/-- On scores that are non-negative multiples of `1/100` up to 99, the
source banding agrees with the claimed banding. -/
theorem score_band_agrees (k : ℕ) (hk : k ≤ 9900) :
    score_to_phenotype (mkRat k 100) = score_band_spec (mkRat k 100) := by
  have hs : (mkRat (k : Int) 100 : ℚ) = (k : ℚ) / 100 := by
    rw [Rat.mkRat_eq_div]
    norm_num
  have e1 : (mkRat 1 100 : ℚ) = 1 / 100 := by rw [Rat.mkRat_eq_div]; norm_num
  have e2 : (mkRat 101 100 : ℚ) = 101 / 100 := by rw [Rat.mkRat_eq_div]; norm_num
  have e3 : (mkRat 201 100 : ℚ) = 201 / 100 := by rw [Rat.mkRat_eq_div]; norm_num
  have e4 : (mkRat 301 100 : ℚ) = 301 / 100 := by rw [Rat.mkRat_eq_div]; norm_num
  rw [score_to_phenotype_eq]
  unfold score_band_spec
  rw [hs, e1, e2, e3, e4]
  rcases Nat.lt_or_ge k 1 with h1 | h1
  · have hk0 : k = 0 := by omega
    subst hk0
    norm_num
  · have q1 : (1 : ℚ) ≤ (k : ℚ) := by exact_mod_cast h1
    rcases Nat.lt_or_ge k 101 with h2 | h2
    · have q2 : (k : ℚ) ≤ 100 := by exact_mod_cast (by omega : k ≤ 100)
      rw [if_neg (fun hc => by linarith [hc.1, hc.2]),
          if_pos (⟨by linarith, by linarith⟩ : 1/100 ≤ (k:ℚ)/100 ∧ (k:ℚ)/100 ≤ 1),
          if_neg (fun hc : (k:ℚ)/100 = 0 => by linarith),
          if_pos (by linarith : (k:ℚ)/100 ≤ 1)]
    · have q2 : (101 : ℚ) ≤ (k : ℚ) := by exact_mod_cast h2
      rcases Nat.lt_or_ge k 201 with h3 | h3
      · have q3 : (k : ℚ) ≤ 200 := by exact_mod_cast (by omega : k ≤ 200)
        rw [if_neg (fun hc => by linarith [hc.1, hc.2]),
            if_neg (fun hc => by linarith [hc.1, hc.2]),
            if_pos (⟨by linarith, by linarith⟩ :
              101/100 ≤ (k:ℚ)/100 ∧ (k:ℚ)/100 ≤ 2),
            if_neg (fun hc : (k:ℚ)/100 = 0 => by linarith),
            if_neg (fun hc : (k:ℚ)/100 ≤ 1 => by linarith),
            if_pos (by linarith : (k:ℚ)/100 ≤ 2)]
      · have q3 : (201 : ℚ) ≤ (k : ℚ) := by exact_mod_cast h3
        rcases Nat.lt_or_ge k 301 with h4 | h4
        · have q4 : (k : ℚ) ≤ 300 := by exact_mod_cast (by omega : k ≤ 300)
          rw [if_neg (fun hc => by linarith [hc.1, hc.2]),
              if_neg (fun hc => by linarith [hc.1, hc.2]),
              if_neg (fun hc => by linarith [hc.1, hc.2]),
              if_pos (⟨by linarith, by linarith⟩ :
                201/100 ≤ (k:ℚ)/100 ∧ (k:ℚ)/100 ≤ 3),
              if_neg (fun hc : (k:ℚ)/100 = 0 => by linarith),
              if_neg (fun hc : (k:ℚ)/100 ≤ 1 => by linarith),
              if_neg (fun hc : (k:ℚ)/100 ≤ 2 => by linarith),
              if_pos (by linarith : (k:ℚ)/100 ≤ 3)]
        · have q4 : (301 : ℚ) ≤ (k : ℚ) := by exact_mod_cast h4
          have q5 : (k : ℚ) ≤ 9900 := by exact_mod_cast hk
          rw [if_neg (fun hc => by linarith [hc.1, hc.2]),
              if_neg (fun hc => by linarith [hc.1, hc.2]),
              if_neg (fun hc => by linarith [hc.1, hc.2]),
              if_neg (fun hc => by linarith [hc.1, hc.2]),
              if_pos (⟨by linarith, by linarith⟩ :
                301/100 ≤ (k:ℚ)/100 ∧ (k:ℚ)/100 ≤ 99),
              if_neg (fun hc : (k:ℚ)/100 = 0 => by linarith),
              if_neg (fun hc : (k:ℚ)/100 ≤ 1 => by linarith),
              if_neg (fun hc : (k:ℚ)/100 ≤ 2 => by linarith),
              if_neg (fun hc : (k:ℚ)/100 ≤ 3 => by linarith)]

/-- Counterexample to C1 as stated: the banding is not exhaustive over all
non-negative scores.  The score 0.005 lies in the claimed IM band `(0,1]`
and the score 100 lies in the claimed URM band `(3,∞)`, yet the source
banding returns `"Unknown"` for both (the rows have gaps below each `0.01`
lower bound, and the last row is capped at 99). -/
theorem claim_C1_counterexample :
    ((0 : ℚ) ≤ mkRat 1 200 ∧ score_to_phenotype (mkRat 1 200) = "Unknown") ∧
    ((0 : ℚ) ≤ 100 ∧ score_to_phenotype 100 = "Unknown") := by
  refine ⟨⟨by decide, by decide⟩, ⟨by decide, by decide⟩⟩

/-- C1 (amended): for every activity score that is a non-negative integer
multiple of 0.01 of at most 99 — which covers every score the predictor
can produce up to 99, all of them multiples of 0.5 — the banding maps the
score to exactly one of PM/IM/NM/RM/URM following the claimed bands (0 to
PM, `(0,1]` to IM, `(1,2]` to NM, `(2,3]` to RM, above 3 to URM) and never
returns Unknown.  Scores in the gaps below the `0.01` row bounds or above
99 do return Unknown (see the counterexample). -/
theorem claim_C1_amended :
    ∀ k : ℕ, k ≤ 9900 →
      score_to_phenotype (mkRat k 100) = score_band_spec (mkRat k 100) ∧
      score_to_phenotype (mkRat k 100) ≠ "Unknown" := by
  intro k hk
  refine ⟨score_band_agrees k hk, ?_⟩
  rw [score_band_agrees k hk]
  exact score_band_spec_ne_unknown _

/-- Witness for the amended C1 at score 0.5 (the smallest positive score
the predictor can produce). -/
theorem claim_C1_witness :
    score_to_phenotype (mkRat 50 100) = score_band_spec (mkRat 50 100) ∧
    score_to_phenotype (mkRat 50 100) ≠ "Unknown" :=
  claim_C1_amended 50 (by decide)

/-- `fill_step` leaves every other key's binding unchanged. -/
theorem fill_step_lookup_ne (fb : Narrative) (r : List (String × J))
    (key k : String) (h : k ≠ key) :
    (fill_step fb r key).lookup k = r.lookup k := by
  unfold fill_step
  rcases hl : r.lookup key with _ | v
  · exact lookup_upsert_ne _ _ _ _ h
  · by_cases ht : jTruthy v <;> simp [ht, lookup_upsert_ne _ _ _ _ h]

/-- What C9 claims for each of the three string fields: keep the original
value exactly when it is present and truthy, else substitute the fallback
value. -/
def patch_field (original : Option J) (fbv : J) : J :=
  match original with
  | some v => if jTruthy v then v else fbv
  | none => fbv

/-- What C9 claims for `references`: keep the original exactly when it is a
non-empty list, else substitute the fallback reference list. -/
def patch_references (original : Option J) (fbRefs : List String) : J :=
  match original with
  | some (.arr l) => if l.isEmpty then .arr (fbRefs.map .str) else .arr l
  | _ => .arr (fbRefs.map .str)

/-- `fill_step` patches its own key as `patch_field`. -/
theorem fill_step_lookup_self (fb : Narrative) (r : List (String × J)) (key : String) :
    (fill_step fb r key).lookup key =
      some (patch_field (r.lookup key) (fallback_field fb key)) := by
  unfold fill_step patch_field
  rcases hl : r.lookup key with _ | v
  · simp [lookup_upsert_self]
  · by_cases ht : jTruthy v <;> simp [hl, ht, lookup_upsert_self]

/-- C9: `_validate_and_fill` patches each required field from the
deterministic fallback exactly when it is missing or empty (Python-falsy),
keeps present non-empty fields unchanged, and additionally replaces
`references` wholesale by the fallback references whenever it is not a
list. -/
theorem claim_C9 :
    ∀ (result : List (String × J)) (gene diplotype phenotype drug riskLabel action : String),
      (validate_and_fill result gene diplotype phenotype drug riskLabel action).lookup "summary" =
        some (patch_field (result.lookup "summary")
          (.str (fallback_explanation gene diplotype phenotype drug riskLabel action).summary)) ∧
      (validate_and_fill result gene diplotype phenotype drug riskLabel action).lookup "mechanism" =
        some (patch_field (result.lookup "mechanism")
          (.str (fallback_explanation gene diplotype phenotype drug riskLabel action).mechanism)) ∧
      (validate_and_fill result gene diplotype phenotype drug riskLabel action).lookup "clinical_context" =
        some (patch_field (result.lookup "clinical_context")
          (.str (fallback_explanation gene diplotype phenotype drug riskLabel action).clinicalContext)) ∧
      (validate_and_fill result gene diplotype phenotype drug riskLabel action).lookup "references" =
        some (patch_references (result.lookup "references")
          (fallback_explanation gene diplotype phenotype drug riskLabel action).references) := by
  intro result gene diplotype phenotype drug riskLabel action
  have hval : validate_and_fill result gene diplotype phenotype drug riskLabel action =
      (let fb := fallback_explanation gene diplotype phenotype drug riskLabel action
       let r1 := fill_step fb (fill_step fb (fill_step fb (fill_step fb result
         "summary") "mechanism") "clinical_context") "references"
       match r1.lookup "references" with
       | some v => if jIsList v then r1
           else upsert r1 "references" (.arr (fb.references.map .str))
       | none => upsert r1 "references" (.arr (fb.references.map .str))) := rfl
  simp only at hval
  generalize hfb : fallback_explanation gene diplotype phenotype drug riskLabel action = fb at *
  generalize hr3 : fill_step fb (fill_step fb (fill_step fb result
    "summary") "mechanism") "clinical_context" = r3 at *
  have hr1refs : (fill_step fb r3 "references").lookup "references" =
      some (patch_field (result.lookup "references") (.arr (fb.references.map .str))) := by
    have h := fill_step_lookup_self fb r3 "references"
    have hr3refs : r3.lookup "references" = result.lookup "references" := by
      rw [← hr3]
      rw [fill_step_lookup_ne _ _ _ _ (by decide)]
      rw [fill_step_lookup_ne _ _ _ _ (by decide)]
      rw [fill_step_lookup_ne _ _ _ _ (by decide)]
    rw [hr3refs] at h
    exact h
  have hout_ne : ∀ k : String, k ≠ "references" →
      (validate_and_fill result gene diplotype phenotype drug riskLabel action).lookup k =
        (fill_step fb r3 "references").lookup k := by
    intro k hk
    rw [hval]
    rcases hrr : (fill_step fb r3 "references").lookup "references" with _ | v
    · simp [lookup_upsert_ne _ _ _ _ hk]
    · by_cases hil : jIsList v <;> simp [hil, lookup_upsert_ne _ _ _ _ hk]
  have hfield : ∀ k : String, k ≠ "references" → k ≠ "clinical_context" →
      k ≠ "mechanism" →
      (fill_step fb r3 "references").lookup k =
        (fill_step fb result "summary").lookup k := by
    intro k hk1 hk2 hk3
    rw [fill_step_lookup_ne _ _ _ _ hk1, ← hr3,
      fill_step_lookup_ne _ _ _ _ hk2, fill_step_lookup_ne _ _ _ _ hk3]
  refine ⟨?_, ?_, ?_, ?_⟩
  · rw [hout_ne "summary" (by decide), hfield "summary" (by decide) (by decide) (by decide),
      fill_step_lookup_self]
    rfl
  · rw [hout_ne "mechanism" (by decide), fill_step_lookup_ne _ _ _ _ (by decide), ← hr3,
      fill_step_lookup_ne _ _ _ _ (by decide), fill_step_lookup_self,
      fill_step_lookup_ne _ _ _ _ (by decide)]
    rfl
  · rw [hout_ne "clinical_context" (by decide), fill_step_lookup_ne _ _ _ _ (by decide), ← hr3,
      fill_step_lookup_self, fill_step_lookup_ne _ _ _ _ (by decide),
      fill_step_lookup_ne _ _ _ _ (by decide)]
    rfl
  · rw [hval]
    rcases href : result.lookup "references" with _ | v
    · rw [href] at hr1refs
      rw [hr1refs]
      simp [patch_field, patch_references, jIsList, lookup_upsert_self, hr1refs]
    · rw [href] at hr1refs
      by_cases ht : jTruthy v
      · have hv : (fill_step fb r3 "references").lookup "references" = some v := by
          rw [hr1refs]
          simp [patch_field, ht]
        rw [hv]
        by_cases hil : jIsList v
        · rcases v with s | q | b | l | o | _ <;> simp [jIsList] at hil
          have hl : ¬l.isEmpty := by simpa [jTruthy] using ht
          simp [jIsList, hv, patch_references, hl]
        · rcases v with s | q | b | l | o | _ <;>
            simp [jIsList] at hil ⊢ <;>
            simp [patch_references, lookup_upsert_self]
      · have hv : (fill_step fb r3 "references").lookup "references" =
            some (J.arr (fb.references.map .str)) := by
          rw [hr1refs]
          simp [patch_field, ht]
        rw [hv]
        rcases v with s | q | b | l | o | _ <;>
          simp [jTruthy] at ht <;>
          simp [jIsList, hv, patch_references, lookup_upsert_self, ht]
